import Mathlib

/-!
Verification development for the railway-postgres-backup service.

Go source code is shallowly embedded into Lean: Go strings are `List Char`,
Go `time.Time` instants are `Int` nanoseconds since the Unix epoch (the Go
zero time `time.Time{}` is the constant `goZeroTimeNs`), Go `time.Duration`
values are `Int` nanoseconds, and `float64` backoff arithmetic is modelled
as exact rational arithmetic with truncation toward zero (the values used by
the service are small integers, where the two coincide).  Subprocess and
network effects are passed in as explicit oracle arguments.
-/

namespace RailwayBackup

/-- Go strings are byte/char sequences; we embed them as `List Char`. -/
abbrev Str := List Char

/-- Coerce a Lean string literal to the embedding type. -/
def str (s : String) : Str := s.toList

/-- Go `strings.HasSuffix`: length check plus equality of the trailing slice. -/
def hasSuffix (s suf : Str) : Bool :=
  decide (suf.length ≤ s.length ∧ s.drop (s.length - suf.length) = suf)

/-- Go `strings.TrimSuffix`: removes one occurrence of a trailing suffix. -/
def trimSuffix (s suf : Str) : Str :=
  if hasSuffix s suf then s.take (s.length - suf.length) else s

/-- Slice `s[len(s)-n:]` of a Go string (used for the trailing timestamp). -/
def takeLast (n : Nat) (s : Str) : Str := s.drop (s.length - n)

/-- Value of a decimal digit character. -/
def digToNat (c : Char) : Nat := c.toNat - '0'.toNat

/-- Structural helper for decimal rendering: the fuel strictly bounds the
value, so it never runs out. -/
def natToStrAux : Nat → Nat → Str
  | 0, _ => []
  | fuel + 1, n =>
    if n < 10 then [Nat.digitChar n]
    else natToStrAux fuel (n / 10) ++ [Nat.digitChar (n % 10)]

/-- Decimal rendering of a natural number, most significant digit first,
mirroring Go integer formatting (`%d`). -/
def natToStr (n : Nat) : Str := natToStrAux (n + 1) n

/-- Decimal rendering of a Go integer (`%d`), signs included. -/
def intToStr (i : Int) : Str :=
  if i < 0 then '-' :: natToStr i.natAbs else natToStr i.natAbs

/-- Zero padding to width `w`, mirroring Go `%0wd` on in-range values. -/
def pad (w : Nat) (n : Nat) : Str :=
  List.replicate (w - (natToStr n).length) '0' ++ natToStr n

/-- Space classification of Go `unicode.IsSpace` (the white space runes). -/
def goIsSpace (c : Char) : Bool :=
  c = ' ' ∨ c = '\t' ∨ c = '\n' ∨ c = Char.ofNat 11 ∨ c = Char.ofNat 12 ∨
  c = '\r' ∨ c = Char.ofNat 0x85 ∨ c = Char.ofNat 0xA0 ∨
  c = Char.ofNat 0x1680 ∨ (0x2000 ≤ c.toNat ∧ c.toNat ≤ 0x200A) ∨
  c = Char.ofNat 0x2028 ∨ c = Char.ofNat 0x2029 ∨ c = Char.ofNat 0x202F ∨
  c = Char.ofNat 0x205F ∨ c = Char.ofNat 0x3000

/-- Go `strings.TrimSpace`. -/
def trimSpace (s : Str) : Str :=
  ((s.dropWhile goIsSpace).reverse.dropWhile goIsSpace).reverse

/-- Go `strings.Fields`: split around runs of white space. -/
def fields (s : Str) : List Str :=
  (s.splitOnP goIsSpace).filter (fun p => p ≠ [])

/-- Decimal value of a digit string (most significant first). -/
def digitsVal (ds : Str) : Nat := ds.foldl (fun acc c => 10 * acc + digToNat c) 0

/-- Go `fmt.Sscanf` with a single `%d` verb: skip leading space, optional
sign, then a non-empty run of digits; trailing text is ignored. -/
def scanInt (s : Str) : Option Int :=
  let s1 := s.dropWhile goIsSpace
  let signBody : Bool × Str :=
    match s1 with
    | c :: rest =>
      if c = '-' then (true, rest) else if c = '+' then (false, rest) else (false, s1)
    | [] => (false, s1)
  let ds := signBody.2.takeWhile Char.isDigit
  if ds = [] then none
  else if signBody.1 then some (-(digitsVal ds : Int))
  else some (digitsVal ds : Int)

/-- A UTC calendar timestamp with millisecond precision, the payload the
filename codec transports. -/
structure DateTime where
  year : Nat
  month : Nat
  day : Nat
  hour : Nat
  minute : Nat
  second : Nat
  ms : Nat
deriving DecidableEq, Repr

/-- Go `isLeap` from the time package. -/
def isLeap (y : Nat) : Bool := y % 4 = 0 ∧ (y % 100 ≠ 0 ∨ y % 400 = 0)

/-- Go `daysIn(m, year)`: days of month `m` (1-12). -/
def daysIn (m : Nat) (y : Nat) : Nat :=
  if m = 2 then (if isLeap y then 29 else 28)
  else if m = 4 ∨ m = 6 ∨ m = 9 ∨ m = 11 then 30
  else 31

/-- The datetimes representable by Go `time.Time` values whose formatted
year fits the fixed 4-digit layout. -/
def ValidDateTime (t : DateTime) : Prop :=
  t.year ≤ 9999 ∧ 1 ≤ t.month ∧ t.month ≤ 12 ∧ 1 ≤ t.day ∧
  t.day ≤ daysIn t.month t.year ∧ t.hour ≤ 23 ∧ t.minute ≤ 59 ∧
  t.second ≤ 59 ∧ t.ms ≤ 999

instance (t : DateTime) : Decidable (ValidDateTime t) := by
  unfold ValidDateTime; infer_instance

/-- Days from the Unix epoch to a civil date (proleptic Gregorian), the
standard days-from-civil algorithm used to turn calendar fields into an
absolute instant. -/
def daysFromCivil (y : Int) (m : Nat) (d : Nat) : Int :=
  let yAdj : Int := if m ≤ 2 then y - 1 else y
  let era : Int := yAdj.fdiv 400
  let yoe : Int := yAdj - era * 400
  let mp : Nat := if 2 < m then m - 3 else m + 9
  let doy : Int := ((153 * mp + 2) / 5 : Nat) + (d : Int) - 1
  let doe : Int := yoe * 365 + yoe / 4 - yoe / 100 + doy
  era * 146097 + doe - 719468

/-- Absolute instant of a UTC datetime: nanoseconds since the Unix epoch.
This is how embedded Go `time.Time` values are compared. -/
def dtToNs (t : DateTime) : Int :=
  (daysFromCivil (t.year : Int) t.month t.day * 86400 +
    (t.hour : Int) * 3600 + (t.minute : Int) * 60 + (t.second : Int)) *
    1000000000 + (t.ms : Int) * 1000000

/-- The Go zero time `time.Time{}` (January 1, year 1, UTC) as an instant. -/
def goZeroTimeNs : Int := dtToNs ⟨1, 1, 1, 0, 0, 0, 0⟩

/-- Rendering of the layout `2006-01-02T15-04-05` by Go `Time.Format`. -/
def formatDatePart (t : DateTime) : Str :=
  pad 4 t.year ++ str "-" ++ pad 2 t.month ++ str "-" ++ pad 2 t.day ++
  str "T" ++ pad 2 t.hour ++ str "-" ++ pad 2 t.minute ++ str "-" ++
  pad 2 t.second

/-- Go `time.Parse` with layout `2006-01-02T15-04-05`, restricted to the
19-character slices the caller passes (all fields of this layout other than
the hour are fixed-width, so a 19-character value parses exactly when it has
the fixed shape below; a one-digit hour would leave trailing text, which
`time.Parse` rejects). Returns the parsed calendar fields. -/
def parseDatePart (s : Str) : Option DateTime :=
  match s with
  | [y1, y2, y3, y4, a1, m1, m2, a2, d1, d2, a3, h1, h2, a4, i1, i2, a5, c1, c2] =>
    if y1.isDigit ∧ y2.isDigit ∧ y3.isDigit ∧ y4.isDigit ∧ a1 = '-' ∧
        m1.isDigit ∧ m2.isDigit ∧ a2 = '-' ∧ d1.isDigit ∧ d2.isDigit ∧
        a3 = 'T' ∧ h1.isDigit ∧ h2.isDigit ∧ a4 = '-' ∧ i1.isDigit ∧
        i2.isDigit ∧ a5 = '-' ∧ c1.isDigit ∧ c2.isDigit then
      let y := digToNat y1 * 1000 + digToNat y2 * 100 + digToNat y3 * 10 + digToNat y4
      let mo := digToNat m1 * 10 + digToNat m2
      let d := digToNat d1 * 10 + digToNat d2
      let h := digToNat h1 * 10 + digToNat h2
      let mi := digToNat i1 * 10 + digToNat i2
      let sec := digToNat c1 * 10 + digToNat c2
      if 1 ≤ mo ∧ mo ≤ 12 ∧ 1 ≤ d ∧ d ≤ daysIn mo y ∧ h ≤ 23 ∧ mi ≤ 59 ∧ sec ≤ 59 then
        some ⟨y, mo, d, h, mi, sec, 0⟩
      else none
    else none
  | _ => none

/-- Embeds `GenerateBackupFilename` from the utils package: renders
`pfx-pgMAJOR-YYYY-MM-DDTHH-mm-ss-mmmZ.tar.gz`, extracting the major version
as the text before the first dot of the first dotted whitespace-separated
field of the version string, with tag `unknown` when the version string is
empty, literally `unknown`, or has no dotted field. -/
def GenerateBackupFilename (pfx : Str) (timestamp : DateTime) (pgVersion : Str) : Str :=
  let timeStr := formatDatePart timestamp ++ str "-" ++ pad 3 timestamp.ms ++ str "Z"
  let versionPart :=
    if pgVersion ≠ [] ∧ pgVersion ≠ str "unknown" then
      match (fields pgVersion).filter (fun p => '.' ∈ p) with
      | [] => str "unknown"
      | part :: _ =>
        match part.splitOn '.' with
        | [] => str "unknown"
        | v :: _ => v
    else str "unknown"
  if pfx ≠ [] then
    trimSuffix pfx (str "-") ++ str "-pg" ++ versionPart ++ str "-" ++
      timeStr ++ str ".tar.gz"
  else
    str "backup-pg" ++ versionPart ++ str "-" ++ timeStr ++ str ".tar.gz"

/-- Embeds `ParseBackupFilename` from the utils package: strips the `.tar.gz`
extension, takes the trailing 24 characters, requires a trailing `Z`, parses
characters 0-18 as the date layout and best-effort scans characters 20-22 as
milliseconds (defaulting to 0), and returns the reconstructed instant.
`none` models a non-nil Go error. -/
def ParseBackupFilename (filename : Str) : Option Int :=
  let name := trimSuffix filename (str ".tar.gz")
  if name.length < 24 then none
  else
    let timeStr := takeLast 24 name
    if ¬(timeStr.length = 24 ∧ hasSuffix timeStr (str "Z")) then none
    else
      let datePart := timeStr.take 19
      let msPart := (timeStr.drop 20).take 3
      let ms : Int := (scanInt msPart).getD 0
      match parseDatePart datePart with
      | none => none
      | some base => some (dtToNs base + ms * 1000000)

/-! ### Rate limiter (ratelimit package) -/

/-- The `ratelimit.Config` record. `MinInterval` is a Go duration in nanoseconds. -/
structure RatelimitConfig where
  MinInterval : Int
  ForceBackup : Bool

/-- Round-half-even division (the rounding Go `%.0f` formatting performs);
`den` is assumed positive. -/
def roundHalfEven (num den : Int) : Int :=
  let q := num.fdiv den
  let r := num - q * den
  if 2 * r < den then q
  else if den < 2 * r then q + 1
  else if q % 2 = 0 then q else q + 1

/-- Embeds `formatDuration` from the ratelimit package.  Go renders
`%.0f seconds` / `%.0f minutes` / `%.1f hours` of the float64 duration;
float64 arithmetic is modelled as exact rational rounding. -/
def formatDuration (d : Int) : Str :=
  if d < 60000000000 then
    intToStr (roundHalfEven d 1000000000) ++ str " seconds"
  else if d < 3600000000000 then
    intToStr (roundHalfEven d 60000000000) ++ str " minutes"
  else
    let k := roundHalfEven (10 * d) 3600000000000
    intToStr (k / 10) ++ str "." ++ natToStr (k.natAbs % 10) ++ str " hours"

/-- Embeds `TimeBasedLimiter.ShouldBackup`.  `nowNs` is the instant `time.Since`
reads; `lastBackup` is the argument instant, with `goZeroTimeNs` playing the
role of the zero `time.Time` (`IsZero`). -/
def ShouldBackup (cfg : RatelimitConfig) (nowNs : Int) (lastBackup : Int) : Bool × Str :=
  if cfg.ForceBackup then (true, str "forced backup requested")
  else if lastBackup = goZeroTimeNs then (true, str "no previous backup found")
  else
    let timeSinceLastBackup := nowNs - lastBackup
    if timeSinceLastBackup < cfg.MinInterval then
      let timeUntilNextBackup := cfg.MinInterval - timeSinceLastBackup
      (false, str "last backup was " ++ formatDuration timeSinceLastBackup ++
        str " ago, next backup allowed in " ++ formatDuration timeUntilNextBackup)
    else
      (true, str "last backup was " ++ formatDuration timeSinceLastBackup ++ str " ago")

/-! ### Retry discipline (storage factory and psql query retry) -/

/-- The delay update shared by both retry loops:
`delay = min(time.Duration(float64(delay) * multiplier), maxDelay)`.
The float64 product is modelled as the exact rational product; conversion
to a duration truncates toward zero, computed on the numerator and
denominator of the multiplier. -/
def updateDelay (delay : Int) (mult : ℚ) (maxDelay : Int) : Int :=
  min ((delay * mult.num).tdiv (mult.den : Int)) maxDelay

/-- The `storage.RetryConfig` record. -/
structure RetryConfig where
  MaxAttempts : Nat
  InitialDelay : Int
  MaxDelay : Int
  Multiplier : ℚ

/-- Embeds `storage.DefaultRetryConfig()`: 3 attempts, 1s initial, 10s max, times 2. -/
def DefaultRetryConfig : RetryConfig :=
  ⟨3, 1000000000, 10000000000, 2⟩

/-- The loop body of `RetryableStorage.retry`: `outcomes a` tells whether
the wrapped call succeeds on (1-indexed) attempt `a`.  Returns the overall
success flag and the list of sleeps performed, in order. -/
def retryLoop (mult : ℚ) (maxDelay : Int) (maxAttempts : Nat)
    (outcomes : Nat → Bool) : Nat → Nat → Int → Bool × List Int
  | 0, _, _ => (true, [])
  | rem + 1, attempt, delay =>
    if outcomes attempt then (true, [])
    else if attempt = maxAttempts then (false, [])
    else
      let next := retryLoop mult maxDelay maxAttempts outcomes rem (attempt + 1)
        (updateDelay delay mult maxDelay)
      (next.1, delay :: next.2)

/-- Embeds `RetryableStorage.retry` over an outcome oracle. -/
def retry (cfg : RetryConfig) (outcomes : Nat → Bool) : Bool × List Int :=
  retryLoop cfg.Multiplier cfg.MaxDelay cfg.MaxAttempts outcomes
    cfg.MaxAttempts 1 cfg.InitialDelay

/-! ### psql error classification and GetInfoWithRetry (backup package) -/

/-- A Go error as the classifier sees it: either an `*exec.ExitError`
carrying captured stderr, or any other error, carrying its message. -/
inductive GoError where
  | exitError (msg : Str) (stderrOut : Str)
  | goError (msg : Str)
deriving DecidableEq

/-- Go `strings.Contains`. -/
def containsSub (s sub : Str) : Bool := decide (sub <:+: s)

/-- Embeds `isRetryableError` from the backup package: for `*exec.ExitError` only
the captured stderr is inspected, against six phrases; for every other
non-nil error only the message is inspected, against three phrases. -/
def isRetryableError : Option GoError → Bool
  | none => false
  | some (.exitError _ stderrOut) =>
    containsSub stderrOut (str "the database system is starting up") ||
    containsSub stderrOut (str "SQLSTATE 57P03") ||
    containsSub stderrOut (str "connection refused") ||
    containsSub stderrOut (str "could not connect to server") ||
    containsSub stderrOut (str "no such host") ||
    containsSub stderrOut (str "timeout expired")
  | some (.goError msg) =>
    containsSub msg (str "connection refused") ||
    containsSub msg (str "no such host") ||
    containsSub msg (str "timeout")

/-- The `backup.RetryConfig` record used by the psql query retry. -/
structure PSQLRetryConfig where
  MaxRetries : Nat
  InitialDelay : Int
  MaxDelay : Int
  BackoffFactor : ℚ

/-- Embeds `defaultPSQLRetryConfig()` without environment overrides:
5 retries, 2s initial delay, 30s max delay, factor 2.0. -/
def defaultPSQLRetryConfig : PSQLRetryConfig :=
  ⟨5, 2000000000, 30000000000, 2⟩

/-- The `backup.DatabaseInfo` record. -/
structure DatabaseInfo where
  Name : Str
  Size : Int
  Version : Str
deriving DecidableEq

/-- Result of one `cmd.Output()` invocation of psql. -/
inductive AttemptOutcome where
  | success (output : Str)
  | failure (e : GoError)

/-- How `GetInfoWithRetry` ends with an error. -/
inductive GetInfoError where
  | nonRetryable (e : GoError)
  | exhausted (maxRetries : Nat)
deriving DecidableEq

/-- The per-attempt body of `GetInfoWithRetry`: on command success the
output is trimmed and split on `|`; any field count other than 3 becomes
the Go error `unexpected output format from psql: <output>`; on exactly 3
fields the size is best-effort scanned and the info returned. -/
def evalAttempt : AttemptOutcome → Except GoError DatabaseInfo
  | .success output =>
    match (trimSpace output).splitOn '|' with
    | [a, b, c] => .ok ⟨trimSpace a, (scanInt b).getD 0, trimSpace c⟩
    | _ => .error (.goError (str "unexpected output format from psql: " ++ output))
  | .failure e => .error e

/-- The retry loop of `GetInfoWithRetry`: attempts are 0-indexed; before
each attempt after the first the loop sleeps the current delay and then
updates it.  Returns the result, the number of attempts executed, and the
sleeps performed in order. -/
def getInfoLoop (cfg : PSQLRetryConfig) (attempts : Nat → AttemptOutcome) :
    Nat → Nat → Int → Except GetInfoError DatabaseInfo × Nat × List Int
  | 0, attempt, _ => (.error (.exhausted cfg.MaxRetries), attempt, [])
  | rem + 1, attempt, delay =>
    let preSleep : List Int := if attempt = 0 then [] else [delay]
    let delay' : Int :=
      if attempt = 0 then delay else updateDelay delay cfg.BackoffFactor cfg.MaxDelay
    match evalAttempt (attempts attempt) with
    | .ok di => (.ok di, attempt + 1, preSleep)
    | .error e =>
      if isRetryableError (some e) then
        let next := getInfoLoop cfg attempts rem (attempt + 1) delay'
        (next.1, next.2.1, preSleep ++ next.2.2)
      else (.error (.nonRetryable e), attempt + 1, preSleep)

/-- Embeds `PostgresBackup.GetInfoWithRetry` over an attempt oracle: the loop runs
attempts `0 .. MaxRetries` (`MaxRetries + 1` executions at most). -/
def GetInfoWithRetry (cfg : PSQLRetryConfig) (attempts : Nat → AttemptOutcome) :
    Except GetInfoError DatabaseInfo × Nat × List Int :=
  getInfoLoop cfg attempts (cfg.MaxRetries + 1) 0 cfg.InitialDelay

/-! ### Version-aware binary selection (pgversion.go) -/

/-- The `backup.PGVersion` record. -/
structure PGVersion where
  Major : Int
  Minor : Int
  Full : Str

/-- Embeds `FindBestPGDump` over an `exec.LookPath` availability oracle: clamp the
server major below 15 up to 15; try the exact versioned binary; otherwise
scan `[17, 16, 15]` in that order for an available binary with version at
least the target; otherwise the plain binary; otherwise scan `[17, 16, 15]`
again ignoring the version bound; `none` models the final error. -/
def FindBestPGDump (lookPath : Str → Bool) (serverVersion : PGVersion) : Option Str :=
  let availableVersions : List Nat := [17, 16, 15]
  let targetVersion : Int :=
    if serverVersion.Major < 15 then 15 else serverVersion.Major
  let exact := str "pg_dump" ++ intToStr targetVersion
  if lookPath exact then some exact
  else
    match availableVersions.find?
        (fun v => decide (targetVersion ≤ Int.ofNat v) && lookPath (str "pg_dump" ++ natToStr v)) with
    | some v => some (str "pg_dump" ++ natToStr v)
    | none =>
      if lookPath (str "pg_dump") then some (str "pg_dump")
      else
        match availableVersions.find? (fun v => lookPath (str "pg_dump" ++ natToStr v)) with
        | some v => some (str "pg_dump" ++ natToStr v)
        | none => none

/-- Embeds `FindBestPSQL`: identical selection over the `psql` binary family. -/
def FindBestPSQL (lookPath : Str → Bool) (serverVersion : PGVersion) : Option Str :=
  let availableVersions : List Nat := [17, 16, 15]
  let targetVersion : Int :=
    if serverVersion.Major < 15 then 15 else serverVersion.Major
  let exact := str "psql" ++ intToStr targetVersion
  if lookPath exact then some exact
  else
    match availableVersions.find?
        (fun v => decide (targetVersion ≤ Int.ofNat v) && lookPath (str "psql" ++ natToStr v)) with
    | some v => some (str "psql" ++ natToStr v)
    | none =>
      if lookPath (str "psql") then some (str "psql")
      else
        match availableVersions.find? (fun v => lookPath (str "psql" ++ natToStr v)) with
        | some v => some (str "psql" ++ natToStr v)
        | none => none

/-! ### Storage objects, cleanup and the orchestrator Run -/

/-- The `storage.ObjectInfo` record (the metadata map is never read by the
orchestrator and is omitted). -/
structure ObjectInfo where
  Key : Str
  Size : Int
  LastModified : Int
deriving DecidableEq

/-- The per-object sweep of `cleanupOldBackups`: derive the backup time
from the filename codec, falling back to the last-modified time; attempt a
delete when strictly before the cutoff; a failed delete (the `deleteOk`
oracle) is logged and the sweep continues.  Returns the keys for which a
delete was attempted, in order, and the count of successful deletes. -/
def cleanupLoop (cutoff : Int) (deleteOk : Str → Bool) :
    List ObjectInfo → List Str × Nat
  | [] => ([], 0)
  | obj :: rest =>
    let backupTime :=
      match ParseBackupFilename obj.Key with
      | some t => t
      | none => obj.LastModified
    let next := cleanupLoop cutoff deleteOk rest
    if backupTime < cutoff then
      (obj.Key :: next.1, (if deleteOk obj.Key then 1 else 0) + next.2)
    else next

/-- Embeds `Orchestrator.cleanupOldBackups`: cutoff is `now` minus the retention
period in days (`AddDate(0, 0, -retentionDays)` in UTC); a list failure is
the only error this function returns. -/
def cleanupOldBackups (retentionDays : Nat) (nowNs : Int)
    (listResult : Option (List ObjectInfo)) (deleteOk : Str → Bool) :
    Option (List Str × Nat) :=
  match listResult with
  | none => none
  | some objects =>
    some (cleanupLoop (nowNs - (retentionDays : Int) * 86400000000000) deleteOk objects)

/-- The slice of `config.Config` the orchestrator reads. -/
structure AppConfig where
  backupFilePfx : Str
  forceBackup : Bool
  respawnProtectionNs : Int
  retentionDays : Nat

/-- Go `Time.Format(time.RFC3339)` of a UTC datetime (second precision,
`Z` zone designator). -/
def rfc3339Format (t : DateTime) : Str :=
  pad 4 t.year ++ str "-" ++ pad 2 t.month ++ str "-" ++ pad 2 t.day ++
  str "T" ++ pad 2 t.hour ++ str ":" ++ pad 2 t.minute ++ str ":" ++
  pad 2 t.second ++ str "Z"

/-- The collaborators of one `Orchestrator.Run`, as oracles: the results of
`GetLastBackupTime` (`none` = error), `GetInfo` (`none` = error), the
`time.Now()` readings at the rate check / at key generation / inside
cleanup, and the success of `Dump`, `Upload`, `List` and per-key `Delete`. -/
structure RunEnv where
  lastBackupTime : Option Int
  rlNowNs : Int
  infoResult : Option DatabaseInfo
  nowDT : DateTime
  dumpOk : Bool
  uploadOk : Bool
  listResult : Option (List ObjectInfo)
  deleteOk : Str → Bool
  cleanupNowNs : Int

/-- Observable effects of one `Orchestrator.Run`. -/
structure RunOutcome where
  skipped : Bool
  uploaded : Option (Str × List (Str × Str))
  attemptedDeletes : List Str
  deletedCount : Nat
  ok : Bool
deriving DecidableEq

/-- Embeds `Orchestrator.Run`: rate-limit check (a fetch failure proceeds), info
fetch with the `unknown` sentinel on failure, key generation as
`YEAR/MM/<filename>`, dump, upload with the four metadata entries, and
best-effort cleanup when a retention period is configured (a cleanup
failure does not fail the run). -/
def Run (cfg : AppConfig) (env : RunEnv) : RunOutcome :=
  let proceed :=
    match env.lastBackupTime with
    | none => true
    | some t =>
      (ShouldBackup ⟨cfg.respawnProtectionNs, cfg.forceBackup⟩ env.rlNowNs t).1
  if !proceed then ⟨true, none, [], 0, true⟩
  else
    let info : DatabaseInfo :=
      match env.infoResult with
      | none => ⟨str "unknown", 0, str "unknown"⟩
      | some i => i
    let filename := GenerateBackupFilename cfg.backupFilePfx env.nowDT info.Version
    let storageKey :=
      natToStr env.nowDT.year ++ str "/" ++ pad 2 env.nowDT.month ++ str "/" ++ filename
    if !env.dumpOk then ⟨false, none, [], 0, false⟩
    else
      let metadata := [(str "backup-timestamp", rfc3339Format env.nowDT),
                       (str "database-name", info.Name),
                       (str "database-version", info.Version),
                       (str "backup-tool", str "railway-postgres-backup")]
      if !env.uploadOk then ⟨false, some (storageKey, metadata), [], 0, false⟩
      else if 0 < cfg.retentionDays then
        match cleanupOldBackups cfg.retentionDays env.cleanupNowNs
            env.listResult env.deleteOk with
        | none => ⟨false, some (storageKey, metadata), [], 0, true⟩
        | some res => ⟨false, some (storageKey, metadata), res.1, res.2, true⟩
      else ⟨false, some (storageKey, metadata), [], 0, true⟩

/-- Lookup in an upload metadata map (embedded as an association list). -/
def lookupMeta (md : List (Str × Str)) (k : Str) : Option Str :=
  (md.find? (fun p => decide (p.1 = k))).map (fun p => p.2)

/-! ### S3 GetLastBackupTime -/

/-- Go `time.Parse(time.RFC3339, s)` (strict RFC 3339 since Go 1.20):
date, `T`, time with colons, optional fraction of at most nine digits,
then `Z` or a `±hh:mm` offset. -/
def rfc3339Parse (s : Str) : Option Int :=
  match s with
  | y1 :: y2 :: y3 :: y4 :: '-' :: m1 :: m2 :: '-' :: d1 :: d2 :: 'T' ::
      h1 :: h2 :: ':' :: i1 :: i2 :: ':' :: c1 :: c2 :: rest =>
    if y1.isDigit ∧ y2.isDigit ∧ y3.isDigit ∧ y4.isDigit ∧ m1.isDigit ∧
        m2.isDigit ∧ d1.isDigit ∧ d2.isDigit ∧ h1.isDigit ∧ h2.isDigit ∧
        i1.isDigit ∧ i2.isDigit ∧ c1.isDigit ∧ c2.isDigit then
      let y := digToNat y1 * 1000 + digToNat y2 * 100 + digToNat y3 * 10 + digToNat y4
      let mo := digToNat m1 * 10 + digToNat m2
      let d := digToNat d1 * 10 + digToNat d2
      let h := digToNat h1 * 10 + digToNat h2
      let mi := digToNat i1 * 10 + digToNat i2
      let sec := digToNat c1 * 10 + digToNat c2
      if 1 ≤ mo ∧ mo ≤ 12 ∧ 1 ≤ d ∧ d ≤ daysIn mo y ∧ h ≤ 23 ∧ mi ≤ 59 ∧ sec ≤ 59 then
        let fracZone : Option (Int × Str) :=
          match rest with
          | '.' :: more =>
            let ds := more.takeWhile Char.isDigit
            if ds = [] ∨ 9 < ds.length then none
            else some ((digitsVal ds : Int) * (10 ^ (9 - ds.length) : Nat),
              more.drop ds.length)
          | _ => some (0, rest)
        match fracZone with
        | none => none
        | some (nanos, zone) =>
          let offset : Option Int :=
            match zone with
            | ['Z'] => some 0
            | [sgn, a1, a2, ':', b1, b2] =>
              if (sgn = '+' ∨ sgn = '-') ∧ a1.isDigit ∧ a2.isDigit ∧
                  b1.isDigit ∧ b2.isDigit then
                let zh := digToNat a1 * 10 + digToNat a2
                let zm := digToNat b1 * 10 + digToNat b2
                if zh ≤ 23 ∧ zm ≤ 59 then
                  some ((if sgn = '-' then -1 else 1) * ((zh : Int) * 3600 + (zm : Int) * 60))
                else none
              else none
            | _ => none
          match offset with
          | none => none
          | some off =>
            some (dtToNs ⟨y, mo, d, h, mi, sec, 0⟩ + nanos - off * 1000000000)
      else none
    else none
  | _ => none

/-- Embeds `S3Storage.GetLastBackupTime` over oracles: the list result (`none` =
error) and the `HeadObject` metadata by key (`none` = head error).  An
empty listing yields the zero time with a nil error; otherwise the most
recently modified object's `backup-timestamp` metadata is preferred over
its raw modification time.  Ties in the descending sort are unspecified in
Go (`sort.Slice` is unstable); the embedding uses a merge sort. -/
def S3GetLastBackupTime (listResult : Option (List ObjectInfo))
    (headMeta : Str → Option (List (Str × Str))) : Option Int :=
  match listResult with
  | none => none
  | some objects =>
    if objects = [] then some goZeroTimeNs
    else
      let sorted := objects.mergeSort (fun a b => b.LastModified ≤ a.LastModified)
      match sorted with
      | [] => some goZeroTimeNs
      | top :: _ =>
        match headMeta top.Key with
        | none => some top.LastModified
        | some md =>
          match lookupMeta md (str "backup-timestamp") with
          | some ts =>
            match rfc3339Parse ts with
            | some t => some t
            | none => some top.LastModified
          | none => some top.LastModified

/-! ### Derived definitions used to state the claims -/

/-- The backup time cleanup assigns to a stored object: the codec parse of
its key, or its raw last-modified time when parsing fails. -/
def backupTimeNs (obj : ObjectInfo) : Int :=
  (ParseBackupFilename obj.Key).getD obj.LastModified

/-- The keys cleanup is specified to delete: exactly the objects whose
backup time is strictly before the cutoff. -/
def expiredKeys (cutoff : Int) (objects : List ObjectInfo) : List Str :=
  (objects.filter (fun o => backupTimeNs o < cutoff)).map ObjectInfo.Key

/-- The database info `Run` proceeds with: the fetched info, or the
`unknown` sentinel when the fetch failed. -/
def effectiveInfo (env : RunEnv) : DatabaseInfo :=
  env.infoResult.getD ⟨str "unknown", 0, str "unknown"⟩

/-- The backoff recurrence of the specification: the first sleep is the
initial delay and each subsequent sleep is
`min(previous * multiplier, maxDelay)`. -/
def backoffSeq (initial : Int) (mult : ℚ) (maxDelay : Int) : Nat → Int
  | 0 => initial
  | n + 1 => updateDelay (backoffSeq initial mult maxDelay n) mult maxDelay

/-- The trailing timestamp segment `GenerateBackupFilename` renders (the
value of its `timeStr` local). -/
def timeStrOf (t : DateTime) : Str :=
  formatDatePart t ++ str "-" ++ pad 3 t.ms ++ str "Z"

end RailwayBackup

namespace RailwayBackup

/-! ### Digit and padding lemmas -/

theorem natToStrAux_irrel : ∀ (f1 f2 n : Nat), n < f1 → n < f2 →
    natToStrAux f1 n = natToStrAux f2 n := by
  intro f1
  induction f1 with
  | zero => intro f2 n h1; omega
  | succ f ih =>
    intro f2 n h1 h2
    cases f2 with
    | zero => omega
    | succ g =>
      rw [natToStrAux, natToStrAux]
      by_cases h10 : n < 10
      · simp [h10]
      · have hq : n / 10 < f := by omega
        have hq2 : n / 10 < g := by omega
        simp only [h10, if_false]
        rw [ih g (n / 10) hq hq2]

theorem natToStr_lt10 {n : Nat} (h : n < 10) : natToStr n = [Nat.digitChar n] := by
  rw [natToStr, natToStrAux]; simp [h]

theorem natToStr_ge10 {n : Nat} (h : 10 ≤ n) :
    natToStr n = natToStr (n / 10) ++ [Nat.digitChar (n % 10)] := by
  rw [natToStr, natToStr, natToStrAux]
  simp only [Nat.not_lt_of_ge h, if_false]
  rw [natToStrAux_irrel n (n / 10 + 1) (n / 10) (by omega) (by omega)]

theorem digitChar_isDigit {n : Nat} (h : n < 10) : (Nat.digitChar n).isDigit = true := by
  interval_cases n <;> decide

theorem digToNat_digitChar {n : Nat} (h : n < 10) : digToNat (Nat.digitChar n) = n := by
  interval_cases n <;> decide

theorem digitChar_zero : Nat.digitChar 0 = '0' := rfl

theorem natToStr2 {n : Nat} (h1 : 10 ≤ n) (h2 : n ≤ 99) :
    natToStr n = [Nat.digitChar (n / 10), Nat.digitChar (n % 10)] := by
  rw [natToStr_ge10 h1, natToStr_lt10 (by omega : n / 10 < 10)]
  rfl

theorem natToStr3 {n : Nat} (h1 : 100 ≤ n) (h2 : n ≤ 999) :
    natToStr n = [Nat.digitChar (n / 100), Nat.digitChar (n / 10 % 10),
      Nat.digitChar (n % 10)] := by
  rw [natToStr_ge10 (by omega : 10 ≤ n),
    natToStr2 (by omega : 10 ≤ n / 10) (by omega : n / 10 ≤ 99),
    (by omega : n / 10 / 10 = n / 100)]
  rfl

theorem natToStr4 {n : Nat} (h1 : 1000 ≤ n) (h2 : n ≤ 9999) :
    natToStr n = [Nat.digitChar (n / 1000), Nat.digitChar (n / 100 % 10),
      Nat.digitChar (n / 10 % 10), Nat.digitChar (n % 10)] := by
  rw [natToStr_ge10 (by omega : 10 ≤ n),
    natToStr3 (by omega : 100 ≤ n / 10) (by omega : n / 10 ≤ 999),
    (by omega : n / 10 / 100 = n / 1000), (by omega : n / 10 / 10 = n / 100)]
  rfl

theorem pad2_eq {n : Nat} (h : n ≤ 99) :
    pad 2 n = [Nat.digitChar (n / 10), Nat.digitChar (n % 10)] := by
  rcases Nat.lt_or_ge n 10 with h10 | h10
  · have e1 : n / 10 = 0 := Nat.div_eq_of_lt h10
    have e2 : n % 10 = n := Nat.mod_eq_of_lt h10
    simp [pad, natToStr_lt10 h10, e1, e2, digitChar_zero, List.replicate]
  · simp [pad, natToStr2 h10 h]

theorem pad3_eq {n : Nat} (h : n ≤ 999) :
    pad 3 n = [Nat.digitChar (n / 100), Nat.digitChar (n / 10 % 10),
      Nat.digitChar (n % 10)] := by
  rcases Nat.lt_or_ge n 100 with h100 | h100
  · have e0 : n / 100 = 0 := Nat.div_eq_of_lt h100
    rcases Nat.lt_or_ge n 10 with h10 | h10
    · have e1 : n / 10 = 0 := Nat.div_eq_of_lt h10
      have e2 : n % 10 = n := Nat.mod_eq_of_lt h10
      have e3 : n / 10 % 10 = 0 := by omega
      simp [pad, natToStr_lt10 h10, e0, e2, e3, digitChar_zero, List.replicate]
    · have e1 : n / 10 % 10 = n / 10 := Nat.mod_eq_of_lt (by omega)
      simp [pad, natToStr2 h10 (by omega), e0, e1, digitChar_zero, List.replicate]
  · simp [pad, natToStr3 h100 h]

theorem pad4_eq {n : Nat} (h : n ≤ 9999) :
    pad 4 n = [Nat.digitChar (n / 1000), Nat.digitChar (n / 100 % 10),
      Nat.digitChar (n / 10 % 10), Nat.digitChar (n % 10)] := by
  rcases Nat.lt_or_ge n 1000 with h1000 | h1000
  · have e0 : n / 1000 = 0 := Nat.div_eq_of_lt h1000
    rcases Nat.lt_or_ge n 100 with h100 | h100
    · rcases Nat.lt_or_ge n 10 with h10 | h10
      · have e1 : n % 10 = n := Nat.mod_eq_of_lt h10
        have e2 : n / 10 % 10 = 0 := by omega
        have e3 : n / 100 % 10 = 0 := by omega
        simp [pad, natToStr_lt10 h10, e0, e1, e2, e3, digitChar_zero, List.replicate]
      · have e1 : n / 10 % 10 = n / 10 := Nat.mod_eq_of_lt (by omega)
        have e3 : n / 100 % 10 = 0 := by omega
        simp [pad, natToStr2 h10 (by omega), e0, e1, e3, digitChar_zero, List.replicate]
    · have e3 : n / 100 % 10 = n / 100 := Nat.mod_eq_of_lt (by omega)
      simp [pad, natToStr3 h100 (by omega), e0, e3, digitChar_zero, List.replicate]
  · simp [pad, natToStr4 h1000 h]

/-! ### Append and slicing lemmas -/

theorem trimSuffix_append (l suf : Str) : trimSuffix (l ++ suf) suf = l := by
  have hlen : (l ++ suf).length - suf.length = l.length := by
    simp [List.length_append]
  have hsuf : hasSuffix (l ++ suf) suf = true := by
    simp [hasSuffix, hlen, List.drop_left, List.length_append]
  simp [trimSuffix, hsuf, hlen, List.take_left]

theorem takeLast_append {r : Str} (l : Str) {n : Nat} (h : r.length = n) :
    takeLast n (l ++ r) = r := by
  unfold takeLast
  rw [List.length_append, (by omega : l.length + r.length - n = l.length),
    List.drop_left]

end RailwayBackup

namespace RailwayBackup

/-! ### Round-trip lemmas for the filename codec -/

theorem hasSuffix_append (l suf : Str) : hasSuffix (l ++ suf) suf = true := by
  have hlen : (l ++ suf).length - suf.length = l.length := by
    simp [List.length_append]
  simp [hasSuffix, hlen, List.drop_left, List.length_append]

theorem daysIn_le_31 (m y : Nat) : daysIn m y ≤ 31 := by
  unfold daysIn
  split
  · split <;> omega
  · split <;> omega

theorem formatDatePart_eq (t : DateTime) (h : ValidDateTime t) :
    formatDatePart t =
      [Nat.digitChar (t.year / 1000), Nat.digitChar (t.year / 100 % 10),
       Nat.digitChar (t.year / 10 % 10), Nat.digitChar (t.year % 10), '-',
       Nat.digitChar (t.month / 10), Nat.digitChar (t.month % 10), '-',
       Nat.digitChar (t.day / 10), Nat.digitChar (t.day % 10), 'T',
       Nat.digitChar (t.hour / 10), Nat.digitChar (t.hour % 10), '-',
       Nat.digitChar (t.minute / 10), Nat.digitChar (t.minute % 10), '-',
       Nat.digitChar (t.second / 10), Nat.digitChar (t.second % 10)] := by
  obtain ⟨hy, hm1, hm2, hd1, hd2, hh, hmi, hs, hms⟩ := h
  have hday : t.day ≤ 31 := le_trans hd2 (daysIn_le_31 _ _)
  rw [formatDatePart, pad4_eq hy, pad2_eq (by omega : t.month ≤ 99),
    pad2_eq (by omega : t.day ≤ 99), pad2_eq (by omega : t.hour ≤ 99),
    pad2_eq (by omega : t.minute ≤ 99), pad2_eq (by omega : t.second ≤ 99)]
  rfl

theorem formatDatePart_length (t : DateTime) (h : ValidDateTime t) :
    (formatDatePart t).length = 19 := by
  rw [formatDatePart_eq t h]; rfl

theorem parseDatePart_format (t : DateTime) (h : ValidDateTime t) :
    parseDatePart (formatDatePart t) =
      some ⟨t.year, t.month, t.day, t.hour, t.minute, t.second, 0⟩ := by
  obtain ⟨hy, hm1, hm2, hd1, hd2, hh, hmi, hs, hms⟩ := h
  rw [formatDatePart_eq t ⟨hy, hm1, hm2, hd1, hd2, hh, hmi, hs, hms⟩]
  have hday : t.day ≤ 31 := le_trans hd2 (daysIn_le_31 _ _)
  rw [parseDatePart]
  rw [if_pos (by
    refine ⟨?_, ?_, ?_, ?_, rfl, ?_, ?_, rfl, ?_, ?_, rfl, ?_, ?_, rfl, ?_, ?_, rfl, ?_, ?_⟩ <;>
      exact digitChar_isDigit (by omega))]
  rw [digToNat_digitChar (by omega : t.year / 1000 < 10),
    digToNat_digitChar (by omega : t.year / 100 % 10 < 10),
    digToNat_digitChar (by omega : t.year / 10 % 10 < 10),
    digToNat_digitChar (by omega : t.year % 10 < 10),
    digToNat_digitChar (by omega : t.month / 10 < 10),
    digToNat_digitChar (by omega : t.month % 10 < 10),
    digToNat_digitChar (by omega : t.day / 10 < 10),
    digToNat_digitChar (by omega : t.day % 10 < 10),
    digToNat_digitChar (by omega : t.hour / 10 < 10),
    digToNat_digitChar (by omega : t.hour % 10 < 10),
    digToNat_digitChar (by omega : t.minute / 10 < 10),
    digToNat_digitChar (by omega : t.minute % 10 < 10),
    digToNat_digitChar (by omega : t.second / 10 < 10),
    digToNat_digitChar (by omega : t.second % 10 < 10)]
  rw [(by omega : t.year / 1000 * 1000 + t.year / 100 % 10 * 100 +
        t.year / 10 % 10 * 10 + t.year % 10 = t.year),
    (by omega : t.month / 10 * 10 + t.month % 10 = t.month),
    (by omega : t.day / 10 * 10 + t.day % 10 = t.day),
    (by omega : t.hour / 10 * 10 + t.hour % 10 = t.hour),
    (by omega : t.minute / 10 * 10 + t.minute % 10 = t.minute),
    (by omega : t.second / 10 * 10 + t.second % 10 = t.second)]
  rw [if_pos ⟨hm1, hm2, hd1, hd2, hh, hmi, hs⟩]

theorem scanInt_digits3 {a b c : Nat} (ha : a < 10) (hb : b < 10) (hc : c < 10) :
    scanInt [Nat.digitChar a, Nat.digitChar b, Nat.digitChar c] =
      some ((100 * a + 10 * b + c : Nat) : Int) := by
  have hsa : goIsSpace (Nat.digitChar a) = false := by interval_cases a <;> decide
  have hda : Nat.digitChar a ≠ '-' := by interval_cases a <;> decide
  have hpa : Nat.digitChar a ≠ '+' := by interval_cases a <;> decide
  have hta : (Nat.digitChar a).isDigit = true := digitChar_isDigit ha
  rw [scanInt]
  simp only [List.dropWhile_cons, hsa, if_false, Bool.false_eq_true]
  simp only [if_neg hda, if_neg hpa]
  simp only [List.takeWhile_cons, hta, digitChar_isDigit hb, digitChar_isDigit hc,
    if_true, List.takeWhile_nil]
  rw [if_neg (by simp)]
  simp only [Bool.false_eq_true, if_false]
  rw [digitsVal]
  simp only [List.foldl]
  rw [digToNat_digitChar ha, digToNat_digitChar hb, digToNat_digitChar hc]
  norm_num
  omega

theorem timeStrOf_length (t : DateTime) (h : ValidDateTime t) :
    (timeStrOf t).length = 24 := by
  have hms : t.ms ≤ 999 := h.2.2.2.2.2.2.2.2
  rw [timeStrOf, pad3_eq hms]
  simp [List.length_append, formatDatePart_length t h, str]

theorem parse_front_timeStr (front : Str) (t : DateTime) (h : ValidDateTime t) :
    ParseBackupFilename (front ++ (timeStrOf t ++ str ".tar.gz")) = some (dtToNs t) := by
  have hms : t.ms ≤ 999 := h.2.2.2.2.2.2.2.2
  have h24 : (timeStrOf t).length = 24 := timeStrOf_length t h
  rw [ParseBackupFilename]
  rw [← List.append_assoc front, trimSuffix_append]
  have hlen : (front ++ timeStrOf t).length = front.length + 24 := by
    simp [List.length_append, h24]
  rw [if_neg (by omega : ¬(front ++ timeStrOf t).length < 24)]
  rw [takeLast_append front h24]
  have hz : hasSuffix (timeStrOf t) (str "Z") = true := by
    rw [timeStrOf]
    exact hasSuffix_append _ _
  rw [if_neg (not_not_intro ⟨h24, hz⟩)]
  have h19 : (timeStrOf t).take 19 = formatDatePart t := by
    rw [timeStrOf, List.append_assoc, List.append_assoc]
    exact List.take_left' (formatDatePart_length t h)
  have h20 : ((timeStrOf t).drop 20).take 3 = pad 3 t.ms := by
    rw [timeStrOf, List.append_assoc (formatDatePart t ++ str "-")]
    rw [List.drop_left' (by simp [List.length_append, formatDatePart_length t h, str] :
        (formatDatePart t ++ str "-").length = 20)]
    exact List.take_left' (by rw [pad3_eq hms]; rfl)
  rw [h19, h20]
  dsimp only
  rw [parseDatePart_format t h, pad3_eq hms,
    scanInt_digits3 (by omega) (by omega) (by omega),
    (by omega : 100 * (t.ms / 100) + 10 * (t.ms / 10 % 10) + t.ms % 10 = t.ms)]
  simp only [Option.getD_some]
  rw [dtToNs, dtToNs]
  push_cast
  ring_nf

end RailwayBackup

namespace RailwayBackup

theorem ParseBackupFilename_front (front : Str) (t : DateTime) (h : ValidDateTime t) :
    ParseBackupFilename (front ++ timeStrOf t ++ str ".tar.gz") = some (dtToNs t) := by
  rw [List.append_assoc]
  exact parse_front_timeStr front t h

/-- C1: for every prefix, every version string and every valid UTC
timestamp truncated to milliseconds, parsing the generated backup filename
recovers exactly the instant of the timestamp, with no error. -/
theorem C1_generate_parse_roundtrip (pfx pgVersion : Str) (t : DateTime)
    (h : ValidDateTime t) :
    ParseBackupFilename (GenerateBackupFilename pfx t pgVersion) = some (dtToNs t) := by
  rw [GenerateBackupFilename]
  split
  · exact ParseBackupFilename_front _ t h
  · exact ParseBackupFilename_front _ t h

/-- Witness for C1 at a concrete prefix, version and timestamp. -/
theorem C1_witness :
    ValidDateTime ⟨2024, 1, 2, 15, 4, 5, 123⟩ ∧
    ParseBackupFilename (GenerateBackupFilename (str "backup")
        ⟨2024, 1, 2, 15, 4, 5, 123⟩ (str "PostgreSQL 15.2")) =
      some (dtToNs ⟨2024, 1, 2, 15, 4, 5, 123⟩) :=
  ⟨by decide, C1_generate_parse_roundtrip (str "backup") (str "PostgreSQL 15.2")
    ⟨2024, 1, 2, 15, 4, 5, 123⟩ (by decide)⟩

theorem takeLast_length_of_le {n : Nat} {s : Str} (h : n ≤ s.length) :
    (takeLast n s).length = n := by
  unfold takeLast
  rw [List.length_drop]
  omega

/-- C9 (amended): `ParseBackupFilename` errors exactly when the name left
after stripping the extension is shorter than 24 characters, or the
trailing 24-character segment does not end in `Z`, or the first 19
characters of that segment fail the fixed date-layout parse; the characters
at offsets 19-22 are not otherwise validated, and on success the result is
the parsed date plus the best-effort-scanned milliseconds. -/
theorem C9_parse_error_characterization (s : Str) :
    (ParseBackupFilename s = none ↔
      (trimSuffix s (str ".tar.gz")).length < 24 ∨
      hasSuffix (takeLast 24 (trimSuffix s (str ".tar.gz"))) (str "Z") = false ∨
      parseDatePart ((takeLast 24 (trimSuffix s (str ".tar.gz"))).take 19) = none) ∧
    (∀ v, ParseBackupFilename s = some v →
      ∃ base, parseDatePart ((takeLast 24 (trimSuffix s (str ".tar.gz"))).take 19) =
          some base ∧
        v = dtToNs base +
          ((scanInt (((takeLast 24 (trimSuffix s (str ".tar.gz"))).drop 20).take 3)).getD 0) *
            1000000) := by
  rw [ParseBackupFilename]
  by_cases hlen : (trimSuffix s (str ".tar.gz")).length < 24
  · simp [hlen]
  · rw [if_neg hlen]
    have h24 : (takeLast 24 (trimSuffix s (str ".tar.gz"))).length = 24 :=
      takeLast_length_of_le (by omega)
    by_cases hz : hasSuffix (takeLast 24 (trimSuffix s (str ".tar.gz"))) (str "Z") = true
    · rw [if_neg (not_not_intro ⟨h24, hz⟩)]
      dsimp only
      cases hp : parseDatePart ((takeLast 24 (trimSuffix s (str ".tar.gz"))).take 19) with
      | none => simp [hlen, hz, hp]
      | some base =>
        constructor
        · simp [hlen, hz, hp]
        · intro v hv
          exact ⟨base, rfl, by simpa using hv.symm⟩
    · rw [if_pos (by simp [h24, hz])]
      simp at hz
      simp [hlen, hz]

/-- Counterexample to C9 as stated: this filename's trailing segment has an
`X` where the pattern requires the `-` between seconds and milliseconds,
yet `ParseBackupFilename` succeeds on it. -/
theorem C9_counterexample :
    takeLast 24 (trimSuffix (str "backup-pg15-2024-01-02T15-04-05X123Z.tar.gz")
        (str ".tar.gz")) = str "2024-01-02T15-04-05X123Z" ∧
    ParseBackupFilename (str "backup-pg15-2024-01-02T15-04-05X123Z.tar.gz") =
      some 1704207845123000000 := by
  constructor
  · decide
  · decide

end RailwayBackup

namespace RailwayBackup

/-! ### Cleanup (C3) -/

theorem cleanupLoop_fst (cutoff : Int) (deleteOk : Str → Bool) :
    ∀ objs : List ObjectInfo, (cleanupLoop cutoff deleteOk objs).1 = expiredKeys cutoff objs := by
  intro objs
  induction objs with
  | nil => rfl
  | cons o rest ih =>
    rw [cleanupLoop, expiredKeys, List.filter_cons]
    cases hp : ParseBackupFilename o.Key with
    | some t0 =>
      by_cases hc : t0 < cutoff <;>
        simp [backupTimeNs, hp, hc, ih, expiredKeys]
    | none =>
      by_cases hc : o.LastModified < cutoff <;>
        simp [backupTimeNs, hp, hc, ih, expiredKeys]

/-- C3: cleanup attempts to delete exactly the objects whose backup time
(codec parse of the key, else raw last-modified time) is older than
`now - retentionDays`, independently of per-object delete failures; in the
concrete scenario with objects aged 10, 8 and 2 days, retention 7 days and
a failing delete on the first object, exactly the first two objects are
attempted and the third is retained. -/
theorem C3_cleanup_deletes_expired :
    (∀ (days : Nat) (nowNs : Int) (objects : List ObjectInfo) (deleteOk : Str → Bool),
      (cleanupOldBackups days nowNs (some objects) deleteOk).map Prod.fst =
        some (expiredKeys (nowNs - (days : Int) * 86400000000000) objects)) ∧
    cleanupOldBackups 7 0
        (some [⟨str "a", 1, -864000000000000⟩, ⟨str "b", 1, -691200000000000⟩,
               ⟨str "c", 1, -172800000000000⟩])
        (fun k => decide (k ≠ str "a")) =
      some ([str "a", str "b"], 1) := by
  constructor
  · intro days nowNs objects deleteOk
    rw [cleanupOldBackups, Option.map_some']
    rw [cleanupLoop_fst]
  · decide

/-! ### Rate limiter (C7) -/

/-- C7: `ShouldBackup` always proceeds with the forced reason under the
force flag; proceeds with the no-previous-backup reason on the zero time;
otherwise skips naming the elapsed time and the remaining wait when the
elapsed time is below the minimum interval, and proceeds naming the elapsed
time when it is not. -/
theorem C7_ShouldBackup_cases (cfg : RatelimitConfig) (nowNs lastBackup : Int) :
    (cfg.ForceBackup = true →
      ShouldBackup cfg nowNs lastBackup = (true, str "forced backup requested")) ∧
    (cfg.ForceBackup = false → lastBackup = goZeroTimeNs →
      ShouldBackup cfg nowNs lastBackup = (true, str "no previous backup found")) ∧
    (cfg.ForceBackup = false → lastBackup ≠ goZeroTimeNs →
      nowNs - lastBackup < cfg.MinInterval →
      ShouldBackup cfg nowNs lastBackup = (false,
        str "last backup was " ++ formatDuration (nowNs - lastBackup) ++
        str " ago, next backup allowed in " ++
        formatDuration (cfg.MinInterval - (nowNs - lastBackup)))) ∧
    (cfg.ForceBackup = false → lastBackup ≠ goZeroTimeNs →
      ¬(nowNs - lastBackup < cfg.MinInterval) →
      ShouldBackup cfg nowNs lastBackup = (true,
        str "last backup was " ++ formatDuration (nowNs - lastBackup) ++ str " ago")) := by
  refine ⟨?_, ?_, ?_, ?_⟩
  · intro hf; simp [ShouldBackup, hf]
  · intro hf hz; simp [ShouldBackup, hf, hz]
  · intro hf hz hlt; simp [ShouldBackup, hf, hz, hlt]
  · intro hf hz hge; simp [ShouldBackup, hf, hz, hge]

/-- Witness for C7: the four cases at concrete configurations and times
(6-hour minimum interval; elapsed 1 hour and 25 hours). -/
theorem C7_witness :
    ShouldBackup ⟨21600000000000, true⟩ 0 0 = (true, str "forced backup requested") ∧
    ShouldBackup ⟨21600000000000, false⟩ 5 goZeroTimeNs =
      (true, str "no previous backup found") ∧
    ShouldBackup ⟨21600000000000, false⟩ 7200000000000 3600000000000 =
      (false, str "last backup was 1.0 hours ago, next backup allowed in 5.0 hours") ∧
    ShouldBackup ⟨21600000000000, false⟩ 93600000000000 3600000000000 =
      (true, str "last backup was 25.0 hours ago") := by
  refine ⟨(C7_ShouldBackup_cases _ 0 0).1 rfl,
    (C7_ShouldBackup_cases _ 5 goZeroTimeNs).2.1 rfl rfl,
    ((C7_ShouldBackup_cases _ 7200000000000 3600000000000).2.2.1 rfl (by decide)
      (by decide)).trans (by decide),
    ((C7_ShouldBackup_cases _ 93600000000000 3600000000000).2.2.2 rfl (by decide)
      (by decide)).trans (by decide)⟩

end RailwayBackup

namespace RailwayBackup

/-! ### Retry delay sequences (C5) -/

theorem retryLoop_allFail (mult : ℚ) (maxDelay : Int) (maxAttempts : Nat)
    (outcomes : Nat → Bool) (hf : ∀ a, outcomes a = false) :
    ∀ (rem attempt : Nat) (delay : Int), attempt + rem = maxAttempts + 1 →
      (retryLoop mult maxDelay maxAttempts outcomes rem attempt delay).2 =
        List.iterate (fun d => updateDelay d mult maxDelay) delay (rem - 1) := by
  intro rem
  induction rem with
  | zero => intro attempt delay _; rfl
  | succ r ih =>
    intro attempt delay hsum
    rw [retryLoop]
    rw [hf attempt]
    by_cases hlast : attempt = maxAttempts
    · have : r = 0 := by omega
      subst this
      simp [hlast]
    · have hr : 1 ≤ r := by omega
      simp only [Bool.false_eq_true, if_false, hlast]
      rw [ih (attempt + 1) (updateDelay delay mult maxDelay) (by omega)]
      obtain ⟨r', rfl⟩ : ∃ r', r = r' + 1 := ⟨r - 1, by omega⟩
      simp [List.iterate]

theorem getInfoLoop_allFail (cfg : PSQLRetryConfig) (attempts : Nat → AttemptOutcome)
    (hf : ∀ a, ∃ e, evalAttempt (attempts a) = .error e ∧ isRetryableError (some e) = true) :
    ∀ (rem attempt : Nat) (delay : Int), 1 ≤ attempt →
      (getInfoLoop cfg attempts rem attempt delay).2.2 =
        List.iterate (fun d => updateDelay d cfg.BackoffFactor cfg.MaxDelay) delay rem := by
  intro rem
  induction rem with
  | zero => intro attempt delay _; rfl
  | succ r ih =>
    intro attempt delay hge
    obtain ⟨e, he, hr⟩ := hf attempt
    rw [getInfoLoop, he]
    have h0 : ¬attempt = 0 := by omega
    simp only [h0, if_false, hr, if_true]
    rw [ih (attempt + 1) _ (by omega)]
    simp [List.iterate]

/-- C5: attempt 0 of either retry loop runs with no preceding sleep, and
the sleeps of both the storage retry loop and the psql query retry loop
follow the recurrence `delay' = min(delay * multiplier, maxDelay)` from the
initial delay (the `List.iterate` of the delay update); for the policy
{initial 2s, factor 2.0, max 30s} the sequence is exactly
[2s, 4s, 8s, 16s, 30s, 30s] over seven attempts and never exceeds 30s. -/
theorem C5_retry_delay_sequence :
    (∀ (cfg : RetryConfig) (outcomes : Nat → Bool), outcomes 1 = true →
      retry cfg outcomes = (true, [])) ∧
    (∀ (cfg : RetryConfig) (outcomes : Nat → Bool), (∀ a, outcomes a = false) →
      (retry cfg outcomes).2 =
        List.iterate (fun d => updateDelay d cfg.Multiplier cfg.MaxDelay)
          cfg.InitialDelay (cfg.MaxAttempts - 1)) ∧
    (∀ (cfg : PSQLRetryConfig) (attempts : Nat → AttemptOutcome),
      (∀ a, ∃ e, evalAttempt (attempts a) = .error e ∧ isRetryableError (some e) = true) →
      (GetInfoWithRetry cfg attempts).2.2 =
        List.iterate (fun d => updateDelay d cfg.BackoffFactor cfg.MaxDelay)
          cfg.InitialDelay cfg.MaxRetries) ∧
    (retry ⟨7, 2000000000, 30000000000, 2⟩ (fun _ => false)).2 =
      [2000000000, 4000000000, 8000000000, 16000000000, 30000000000, 30000000000] ∧
    (GetInfoWithRetry ⟨6, 2000000000, 30000000000, 2⟩
        (fun _ => .failure (.goError (str "connection refused")))).2.2 =
      [2000000000, 4000000000, 8000000000, 16000000000, 30000000000, 30000000000] ∧
    (∀ (n : Nat) (x : Int),
      x ∈ List.iterate (fun d => updateDelay d 2 30000000000) 2000000000 n →
      x ≤ 30000000000) := by
  refine ⟨?_, ?_, ?_, by decide, by decide, ?_⟩
  · intro cfg outcomes h1
    cases hm : cfg.MaxAttempts with
    | zero => simp [retry, hm, retryLoop]
    | succ m => simp [retry, hm, retryLoop, h1]
  · intro cfg outcomes hf
    cases hm : cfg.MaxAttempts with
    | zero => simp [retry, hm, retryLoop, List.iterate]
    | succ m =>
      rw [retry, hm, retryLoop_allFail _ _ _ _ hf (m + 1) 1 _ (by omega)]
  · intro cfg attempts hf
    obtain ⟨e, he, hr⟩ := hf 0
    rw [GetInfoWithRetry, getInfoLoop, he]
    simp only [if_pos rfl, hr, if_true]
    rw [getInfoLoop_allFail cfg attempts hf cfg.MaxRetries 1 _ (by omega)]
    simp
  · have key : ∀ (n : Nat) (a : Int), a ≤ 30000000000 →
        ∀ x ∈ List.iterate (fun d => updateDelay d 2 30000000000) a n, x ≤ 30000000000 := by
      intro n
      induction n with
      | zero => intro a _ x hx; simp [List.iterate] at hx
      | succ m ih =>
        intro a ha x hx
        rw [List.iterate] at hx
        rcases List.mem_cons.mp hx with hx | hx
        · omega
        · exact ih _ (min_le_right _ _) x hx
    intro n x hx
    exact key n 2000000000 (by omega) x hx

/-- Witness for C5: the hypotheses of each quantified conjunct discharged
at the concrete always-failing and first-success oracles. -/
theorem C5_witness :
    retry ⟨3, 1000000000, 10000000000, 2⟩ (fun _ => true) = (true, []) ∧
    (retry ⟨3, 1000000000, 10000000000, 2⟩ (fun _ => false)).2 =
      List.iterate (fun d => updateDelay d 2 10000000000) 1000000000 2 ∧
    (GetInfoWithRetry ⟨5, 2000000000, 30000000000, 2⟩
        (fun _ => .failure (.goError (str "no such host")))).2.2 =
      List.iterate (fun d => updateDelay d 2 30000000000) 2000000000 5 := by
  refine ⟨C5_retry_delay_sequence.1 _ _ rfl,
    C5_retry_delay_sequence.2.1 _ _ (fun _ => rfl),
    C5_retry_delay_sequence.2.2.1 _ _ (fun _ => ⟨_, rfl, by decide⟩)⟩

end RailwayBackup

namespace RailwayBackup

/-! ### Error classification (C6) and GetInfo retry behaviour (C8) -/

/-- C6 (amended): the classifier inspects only the captured stderr of exec
exit errors, against six phrases (with the longer forms
`the database system is starting up` and `could not connect to server`),
and only the message of other errors, against the three phrases
`connection refused`, `no such host` and `timeout`; nil is non-retryable;
in particular a password-authentication failure is non-retryable and a
connection-refused error is retryable. -/
theorem C6_isRetryableError_characterization :
    (∀ msg stderrOut : Str, isRetryableError (some (.exitError msg stderrOut)) = true ↔
      (str "the database system is starting up" <:+: stderrOut ∨
       str "SQLSTATE 57P03" <:+: stderrOut ∨
       str "connection refused" <:+: stderrOut ∨
       str "could not connect to server" <:+: stderrOut ∨
       str "no such host" <:+: stderrOut ∨
       str "timeout expired" <:+: stderrOut)) ∧
    (∀ msg : Str, isRetryableError (some (.goError msg)) = true ↔
      (str "connection refused" <:+: msg ∨
       str "no such host" <:+: msg ∨
       str "timeout" <:+: msg)) ∧
    isRetryableError none = false ∧
    isRetryableError (some (.exitError (str "exit status 1")
      (str "psql: error: password authentication failed"))) = false ∧
    isRetryableError (some (.goError (str "password authentication failed"))) = false ∧
    isRetryableError (some (.goError
      (str "dial tcp 127.0.0.1:5432: connect: connection refused"))) = true ∧
    isRetryableError (some (.exitError (str "exit status 2")
      (str "psql: error: could not connect to server: Connection refused"))) = true := by
  refine ⟨?_, ?_, rfl, by decide, by decide, by decide, by decide⟩
  · intro msg stderrOut
    simp [isRetryableError, containsSub, Bool.or_eq_true, decide_eq_true_eq, or_assoc]
  · intro msg
    simp [isRetryableError, containsSub, Bool.or_eq_true, decide_eq_true_eq, or_assoc]

/-- Counterexample to C6 as stated: this non-exec error's message contains
the phrase `starting up`, yet the classifier reports it non-retryable
(the message branch checks only the three connectivity phrases). -/
theorem C6_counterexample :
    isRetryableError (some (.goError (str "the database system is starting up"))) =
      false := by decide

/-- C8 (amended): a query response with a field count other than 3 becomes
the parse error `unexpected output format from psql: <output>`, which is
returned immediately as non-retryable — after exactly one attempt and with
no sleeps — provided that error is not classified retryable, which can
happen only when the response text itself contains one of the phrases
`connection refused`, `no such host` or `timeout`. -/
theorem C8_malformed_response (cfg : PSQLRetryConfig) (attempts : Nat → AttemptOutcome)
    (output : Str) (h0 : attempts 0 = .success output)
    (h3 : ((trimSpace output).splitOn '|').length ≠ 3)
    (hnr : isRetryableError (some (.goError
      (str "unexpected output format from psql: " ++ output))) = false) :
    GetInfoWithRetry cfg attempts =
      (.error (.nonRetryable (.goError (str "unexpected output format from psql: " ++ output))),
        1, []) := by
  rw [GetInfoWithRetry, getInfoLoop, h0]
  have heval : evalAttempt (.success output) =
      .error (.goError (str "unexpected output format from psql: " ++ output)) := by
    rw [evalAttempt]
    split
    · rename_i a b c hsp
      rw [hsp] at h3
      simp at h3
    · rfl
  rw [heval]
  simp [hnr]

/-- Witness for C8: a one-field response without connectivity phrases is
rejected on the first attempt. -/
theorem C8_witness :
    GetInfoWithRetry defaultPSQLRetryConfig (fun _ => .success (str "oops")) =
      (.error (.nonRetryable (.goError
        (str "unexpected output format from psql: " ++ str "oops"))), 1, []) :=
  C8_malformed_response defaultPSQLRetryConfig _ (str "oops") rfl (by decide) (by decide)

/-- Counterexample to C8 as stated: a malformed (single-field) response
whose text is `connection refused` is retried through the whole attempt
budget instead of returning immediately. -/
theorem C8_counterexample :
    GetInfoWithRetry defaultPSQLRetryConfig
        (fun _ => .success (str "connection refused")) =
      (.error (.exhausted 5), 6,
        [2000000000, 4000000000, 8000000000, 16000000000, 30000000000]) := rfl

/-! ### Version selection (C4) -/

/-- C4: with the server at major version 15 and only the version 16 and 17
client binaries installed, selection returns the newest available binary
(17) rather than the closest one at least the target (16) — the descending
`[17, 16, 15]` scan contradicts the closest-match rule — while the claim's
concrete scenario (server 14, all of 15/16/17 installed) does select 15 via
the exact clamped match. -/
theorem C4_version_selection :
    FindBestPGDump (fun s => s == str "pg_dump16" || s == str "pg_dump17")
        ⟨15, 2, str "PostgreSQL 15.2"⟩ = some (str "pg_dump17") ∧
    FindBestPSQL (fun s => s == str "psql16" || s == str "psql17")
        ⟨15, 2, str "PostgreSQL 15.2"⟩ = some (str "psql17") ∧
    FindBestPGDump
        (fun s => s == str "pg_dump15" || s == str "pg_dump16" || s == str "pg_dump17")
        ⟨14, 11, str "PostgreSQL 14.11"⟩ = some (str "pg_dump15") ∧
    FindBestPSQL (fun s => s == str "psql15" || s == str "psql16" || s == str "psql17")
        ⟨14, 11, str "PostgreSQL 14.11"⟩ = some (str "psql15") := by
  refine ⟨by decide, by decide, by decide, by decide⟩

end RailwayBackup

namespace RailwayBackup

/-! ### Orchestrator upload key and metadata (C2) -/

/-- C2 (amended): whenever `Run` reaches the upload, the key it passes to
storage is `<year>/<two-digit month>/` followed by the codec filename for
the configured prefix, the run timestamp and the effective database
version; the metadata carries the RFC 3339 creation timestamp, the database
name, the database version and the fixed tool-identity tag. -/
theorem C2_upload_key_and_metadata (cfg : AppConfig) (env : RunEnv) (k : Str)
    (md : List (Str × Str)) (hup : (Run cfg env).uploaded = some (k, md)) :
    k = natToStr env.nowDT.year ++ str "/" ++ pad 2 env.nowDT.month ++ str "/" ++
      GenerateBackupFilename cfg.backupFilePfx env.nowDT (effectiveInfo env).Version ∧
    lookupMeta md (str "backup-timestamp") = some (rfc3339Format env.nowDT) ∧
    lookupMeta md (str "database-name") = some (effectiveInfo env).Name ∧
    lookupMeta md (str "database-version") = some (effectiveInfo env).Version ∧
    lookupMeta md (str "backup-tool") = some (str "railway-postgres-backup") := by
  cases henv : env.infoResult
  all_goals
    simp only [Run, henv] at hup
    split at hup
    case isTrue => simp at hup
    case isFalse =>
      split at hup
      case isTrue => simp at hup
      case isFalse =>
        repeat' split at hup
        all_goals simp only [Option.some.injEq, Prod.mk.injEq] at hup
        all_goals
          obtain ⟨hk, hmd⟩ := hup
          subst hk
          subst hmd
          refine ⟨?_, ?_, ?_, ?_, ?_⟩ <;> (try rw [effectiveInfo, henv]) <;> rfl

end RailwayBackup

namespace RailwayBackup

/-- Counterexample to C2 as stated: on a successful run the key passed to
upload carries a `YEAR/MM/` directory part in front of the codec filename,
so it does not match the codec format `<prefix>-pg...-...Z.tar.gz`
exactly. -/
theorem C2_counterexample :
    Run ⟨str "backup", false, 21600000000000, 0⟩
        ⟨some goZeroTimeNs, 0, some ⟨str "mydb", 5, str "PostgreSQL 15.2"⟩,
          ⟨2024, 1, 2, 15, 4, 5, 123⟩, true, true, some [], fun _ => true, 0⟩ =
      ⟨false,
        some (str "2024/01/backup-pg15-2024-01-02T15-04-05-123Z.tar.gz",
          [(str "backup-timestamp", str "2024-01-02T15:04:05Z"),
           (str "database-name", str "mydb"),
           (str "database-version", str "PostgreSQL 15.2"),
           (str "backup-tool", str "railway-postgres-backup")]),
        [], 0, true⟩ ∧
    str "2024/01/backup-pg15-2024-01-02T15-04-05-123Z.tar.gz" ≠
      GenerateBackupFilename (str "backup") ⟨2024, 1, 2, 15, 4, 5, 123⟩
        (str "PostgreSQL 15.2") := by
  exact ⟨rfl, by decide⟩

/-- Witness for C2's amended theorem at a concrete run. -/
theorem C2_witness :
    str "2024/01/backup-pg15-2024-01-02T15-04-05-123Z.tar.gz" =
      natToStr 2024 ++ str "/" ++ pad 2 1 ++ str "/" ++
        GenerateBackupFilename (str "backup") ⟨2024, 1, 2, 15, 4, 5, 123⟩
          (effectiveInfo ⟨some goZeroTimeNs, 0,
            some ⟨str "mydb", 5, str "PostgreSQL 15.2"⟩,
            ⟨2024, 1, 2, 15, 4, 5, 123⟩, true, true, some [], fun _ => true, 0⟩).Version ∧
    lookupMeta [(str "backup-timestamp", str "2024-01-02T15:04:05Z"),
        (str "database-name", str "mydb"),
        (str "database-version", str "PostgreSQL 15.2"),
        (str "backup-tool", str "railway-postgres-backup")] (str "backup-tool") =
      some (str "railway-postgres-backup") := by
  have h := C2_upload_key_and_metadata
    ⟨str "backup", false, 21600000000000, 0⟩
    ⟨some goZeroTimeNs, 0, some ⟨str "mydb", 5, str "PostgreSQL 15.2"⟩,
      ⟨2024, 1, 2, 15, 4, 5, 123⟩, true, true, some [], fun _ => true, 0⟩
    (str "2024/01/backup-pg15-2024-01-02T15-04-05-123Z.tar.gz")
    [(str "backup-timestamp", str "2024-01-02T15:04:05Z"),
     (str "database-name", str "mydb"),
     (str "database-version", str "PostgreSQL 15.2"),
     (str "backup-tool", str "railway-postgres-backup")] rfl
  exact ⟨h.1, h.2.2.2.2⟩

/-! ### First-run behaviour of GetLastBackupTime (C10) -/

/-- C10: an empty listing makes `S3GetLastBackupTime` return the zero time
with a nil error; the rate limiter on the zero time (without force)
proceeds with the no-previous-backup reason; and a run whose last-backup
fetch returns the zero time is never skipped. -/
theorem C10_empty_listing_zero_time :
    (∀ headMeta : Str → Option (List (Str × Str)),
      S3GetLastBackupTime (some []) headMeta = some goZeroTimeNs) ∧
    (∀ (cfg : RatelimitConfig) (nowNs : Int), cfg.ForceBackup = false →
      ShouldBackup cfg nowNs goZeroTimeNs = (true, str "no previous backup found")) ∧
    (∀ (cfg : AppConfig) (env : RunEnv), env.lastBackupTime = some goZeroTimeNs →
      (Run cfg env).skipped = false) := by
  refine ⟨fun _ => rfl, ?_, ?_⟩
  · intro cfg nowNs hf
    simp [ShouldBackup, hf]
  · intro cfg env hlast
    have hp : (ShouldBackup ⟨cfg.respawnProtectionNs, cfg.forceBackup⟩
        env.rlNowNs goZeroTimeNs).1 = true := by
      cases hf : cfg.forceBackup <;> simp [ShouldBackup, hf]
    simp only [Run, hlast, hp]
    repeat' split
    all_goals simp_all

/-- Witness for C10 at a concrete configuration and environment. -/
theorem C10_witness :
    S3GetLastBackupTime (some []) (fun _ => none) = some goZeroTimeNs ∧
    ShouldBackup ⟨21600000000000, false⟩ 0 goZeroTimeNs =
      (true, str "no previous backup found") ∧
    (Run ⟨str "backup", false, 21600000000000, 0⟩
        ⟨some goZeroTimeNs, 0, none, ⟨2024, 1, 2, 15, 4, 5, 0⟩, true, true, none,
          fun _ => true, 0⟩).skipped = false :=
  ⟨C10_empty_listing_zero_time.1 _,
   C10_empty_listing_zero_time.2.1 _ 0 rfl,
   C10_empty_listing_zero_time.2.2 _ _ rfl⟩

end RailwayBackup

namespace RailwayBackup

/-- Witness for C9 at a concrete well-formed filename. -/
theorem C9_witness :
    parseDatePart ((takeLast 24 (trimSuffix
        (str "backup-pg15-2024-01-02T15-04-05-123Z.tar.gz") (str ".tar.gz"))).take 19) =
      some ⟨2024, 1, 2, 15, 4, 5, 0⟩ ∧
    (1704207845123000000 : Int) = dtToNs ⟨2024, 1, 2, 15, 4, 5, 0⟩ +
      ((scanInt (((takeLast 24 (trimSuffix
          (str "backup-pg15-2024-01-02T15-04-05-123Z.tar.gz")
          (str ".tar.gz"))).drop 20).take 3)).getD 0) * 1000000 := by
  obtain ⟨base, hb, hv⟩ :=
    (C9_parse_error_characterization
      (str "backup-pg15-2024-01-02T15-04-05-123Z.tar.gz")).2 1704207845123000000 (by decide)
  have h2 : parseDatePart ((takeLast 24 (trimSuffix
      (str "backup-pg15-2024-01-02T15-04-05-123Z.tar.gz") (str ".tar.gz"))).take 19) =
      some (⟨2024, 1, 2, 15, 4, 5, 0⟩ : DateTime) := by decide
  have hbase : base = ⟨2024, 1, 2, 15, 4, 5, 0⟩ := by
    rw [h2] at hb
    exact ((Option.some.injEq _ _).mp hb).symm
  subst hbase
  exact ⟨hb, hv⟩

end RailwayBackup
